import Mathlib

/-!
Shallow embedding of the ShaderSet hot-reload cache (shaderset.h / shaderset.cpp).

The C++ class keeps two registries:
  * `mShaders`   : std::map<ShaderNameTypePair, ShaderHandleTimestampPair>
  * `mPrograms`  : std::map<std::vector<const ShaderNameTypePair*>, ProgramPublicInternalPair>

We embed them as association lists.  A std::map node's address (used by the
code both as the program-key element type and for pointer comparison in
`UpdatePrograms`) is modelled by a `ptrId : Nat` assigned from a monotone
allocator at node creation: addresses are an arbitrary but fixed total order
on live nodes, and creation-order ids are one such assignment.

GL objects are owned exclusively by the registry (one shader object per
shader entry, one program object per program entry), so the GL-side state of
each object (its last submitted source, its compile status, its attached
shaders) is stored inline in the owning entry.  GL handle allocation
(`glCreateShader` / `glCreateProgram`) is modelled by a monotone counter
starting at 1, so allocated handles are nonzero and fresh.

The outside world that one `UpdatePrograms` pass consults (file timestamps,
file contents, the native compiler and linker verdicts) is an `Env` record of
oracles.
-/

/-- GLenum value of GL_VERTEX_SHADER. -/
def GL_VERTEX_SHADER : Nat := 35633
/-- GLenum value of GL_FRAGMENT_SHADER. -/
def GL_FRAGMENT_SHADER : Nat := 35632
/-- GLenum value of GL_GEOMETRY_SHADER. -/
def GL_GEOMETRY_SHADER : Nat := 36313
/-- GLenum value of GL_TESS_CONTROL_SHADER. -/
def GL_TESS_CONTROL_SHADER : Nat := 36488
/-- GLenum value of GL_TESS_EVALUATION_SHADER. -/
def GL_TESS_EVALUATION_SHADER : Nat := 36487
/-- GLenum value of GL_COMPUTE_SHADER. -/
def GL_COMPUTE_SHADER : Nat := 37305

/-- shaderset.h: `struct ShaderNameTypePair { std::string Name; GLenum Type; }`.
`Ty` is the C++ field `Type` (renamed: `Type` is a Lean keyword). -/
structure ShaderNameTypePair where
  Name : String
  Ty : Nat
deriving DecidableEq, Repr

/-- shaderset.h: `struct ShaderHandleTimestampPair { ShaderHandle Handle; uint64_t Timestamp; }`,
together with the state of the GL shader object the entry owns and the
model of the map node's address (`ptrId`). -/
structure ShaderHandleTimestampPair where
  Handle : Nat
  Timestamp : Nat
  /-- model of the address of this std::map node -/
  ptrId : Nat
  /-- stage kind passed to glCreateShader at allocation -/
  glStage : Nat
  /-- last source submitted via glShaderSource ("" if never submitted) -/
  glSource : String
  /-- GL_COMPILE_STATUS of the owned shader object (false if never compiled) -/
  glCompiled : Bool
deriving DecidableEq, Repr

/-- shaderset.h: `struct ProgramPublicInternalPair { ProgramHandle PublicHandle; ProgramHandle InternalHandle; }`,
together with the attachment list of the GL program object the entry owns. -/
structure ProgramPublicInternalPair where
  PublicHandle : Nat
  InternalHandle : Nat
  /-- shader handles attached via glAttachShader at program creation -/
  glAttached : List Nat
deriving DecidableEq, Repr

/-- The ShaderSet class state (shaderset.h, private members). -/
structure ShaderSetState where
  mVersion : String
  mPreamble : String
  mShaders : List (ShaderNameTypePair × ShaderHandleTimestampPair)
  mPrograms : List (List Nat × ProgramPublicInternalPair)
  /-- allocator for map-node identities (models heap addresses of map nodes) -/
  nextPtr : Nat
  /-- allocator for GL object handles (glCreateShader / glCreateProgram) -/
  nextHandle : Nat
deriving Repr

/-- A freshly constructed ShaderSet (ShaderSet() = default). -/
def ShaderSetState.init (version preamble : String) : ShaderSetState :=
  { mVersion := version, mPreamble := preamble, mShaders := [], mPrograms := [],
    nextPtr := 0, nextHandle := 1 }

/-- The outside world consulted by one `UpdatePrograms` pass. -/
structure Env where
  /-- result of stat on a filename: `none` models an I/O error -/
  stat : String → Option Nat
  /-- ShaderStringFromFile: the file's contents ("" when unreadable) -/
  file : String → String
  /-- native compiler verdict (GL_COMPILE_STATUS) for a submitted source -/
  compileOk : String → Bool
  /-- native linker verdict (GL_LINK_STATUS) for a program internal handle -/
  linkOk : Nat → Bool

/-- shaderset.cpp lines 17-59: GetShaderFileTimestamp returns the file's
modification time, and 0 when stat fails. -/
def GetShaderFileTimestamp (env : Env) (filename : String) : Nat :=
  match env.stat filename with
  | none => 0
  | some t => t

/-- Association-list lookup (models std::map::find / emplace-found). -/
def alookup {α β : Type} [DecidableEq α] : List (α × β) → α → Option β
  | [], _ => none
  | (k, v) :: rest, a => if k = a then some v else alookup rest a

/-- Lookup of a shader entry by its node identity (models dereferencing a
`const ShaderNameTypePair*` back to its map entry). -/
def lookupById : List (ShaderNameTypePair × ShaderHandleTimestampPair) → Nat → Option ShaderHandleTimestampPair
  | [], _ => none
  | (_, v) :: rest, i => if v.ptrId = i then some v else lookupById rest i

/-- The shader handle attached for a program-key element:
`glAttachShader(..., mShaders[*shader].Handle)` (shaderset.cpp line 131). -/
def handleOfId (s : ShaderSetState) (i : Nat) : Nat :=
  match lookupById s.mShaders i with
  | some e => e.Handle
  | none => 0

/-- Body of the first loop of AddProgram (shaderset.cpp lines 104-115):
`mShaders.emplace(...)`, allocating a GL shader object when the identity is
unseen; returns the node identity that `shaderNameTypes.push_back` records. -/
def addShader (s : ShaderSetState) (nt : ShaderNameTypePair) : ShaderSetState × Nat :=
  match alookup s.mShaders nt with
  | some e => (s, e.ptrId)
  | none =>
    let e : ShaderHandleTimestampPair :=
      { Handle := s.nextHandle, Timestamp := 0, ptrId := s.nextPtr,
        glStage := nt.Ty, glSource := "", glCompiled := false }
    ({ s with mShaders := s.mShaders ++ [(nt, e)],
              nextPtr := s.nextPtr + 1, nextHandle := s.nextHandle + 1 }, s.nextPtr)

/-- The first loop of AddProgram over `typedShaders`, collecting
`shaderNameTypes` (as node identities). -/
def addShadersLoop : ShaderSetState → List (String × Nat) → ShaderSetState × List Nat
  | s, [] => (s, [])
  | s, p :: rest =>
    let r := addShader s { Name := p.1, Ty := p.2 }
    let r2 := addShadersLoop r.1 rest
    (r2.1, r.2 :: r2.2)

/-- shaderset.cpp line 119: `std::unique` over an already-sorted range
(removes adjacent duplicates). -/
def uniqueAdjacent : List Nat → List Nat
  | [] => []
  | [a] => [a]
  | a :: b :: rest =>
    if a = b then uniqueAdjacent (b :: rest) else a :: uniqueAdjacent (b :: rest)

/-- shaderset.cpp lines 118-119: `std::sort` then `std::unique`/erase, giving
the canonical program key. -/
def canonKey (ids : List Nat) : List Nat :=
  uniqueAdjacent (List.insertionSort (fun a b => a ≤ b) ids)

/-- ShaderSet::AddProgram (shaderset.cpp lines 99-136).  The returned
`List Nat` is the canonical program key: it identifies the map node whose
`PublicHandle` slot the C++ function returns a pointer to. -/
def AddProgram (s : ShaderSetState) (typedShaders : List (String × Nat)) :
    ShaderSetState × List Nat :=
  let r := addShadersLoop s typedShaders
  let key := canonKey r.2
  match alookup r.1.mPrograms key with
  | some _ => (r.1, key)
  | none =>
    let pe : ProgramPublicInternalPair :=
      { PublicHandle := 0, InternalHandle := r.1.nextHandle,
        glAttached := key.map (fun i => handleOfId r.1 i) }
    ({ r.1 with mPrograms := r.1.mPrograms ++ [(key, pe)],
                nextHandle := r.1.nextHandle + 1 }, key)

/-- shaderset.cpp lines 267-289: map a filename's extension (the suffix after
the last '.') to a shader type; `none` models the `return nullptr` paths. -/
def shaderTypeFromExt (ext : String) : Option Nat :=
  if ext = "vert" then some GL_VERTEX_SHADER
  else if ext = "frag" then some GL_FRAGMENT_SHADER
  else if ext = "geom" then some GL_GEOMETRY_SHADER
  else if ext = "tesc" then some GL_TESS_CONTROL_SHADER
  else if ext = "tese" then some GL_TESS_EVALUATION_SHADER
  else if ext = "comp" then some GL_COMPUTE_SHADER
  else none

/-- shaderset.cpp lines 267-275: `find_last_of('.')` and `substr(extLoc + 1)`:
the suffix after the last '.', or `none` when the path has no '.'. -/
def extOf (path : String) : Option String :=
  if path.toList.contains '.' then
    some (String.mk ((path.toList.reverse.takeWhile (fun c => c ≠ '.')).reverse))
  else
    none

/-- Extension-to-type resolution for one path in AddProgramFromExts. -/
def extTypeOf (path : String) : Option Nat :=
  match extOf path with
  | none => none
  | some ext => shaderTypeFromExt ext

/-- The loop of AddProgramFromExts building `typedShaders`; `none` models the
early `return nullptr`. -/
def buildTypedShaders : List String → Option (List (String × Nat))
  | [] => some []
  | path :: rest =>
    match extTypeOf path with
    | none => none
    | some ty =>
      match buildTypedShaders rest with
      | none => none
      | some tl => some ((path, ty) :: tl)

/-- ShaderSet::AddProgramFromExts (shaderset.cpp lines 262-295).  Returns the
(possibly updated) state and `some key` for the returned slot, or `none` for
`return nullptr` (in which case the state is untouched). -/
def AddProgramFromExts (s : ShaderSetState) (shaders : List String) :
    ShaderSetState × Option (List Nat) :=
  match buildTypedShaders shaders with
  | none => (s, none)
  | some typed =>
    let r := AddProgram s typed
    (r.1, some r.2)

/-- Step 1 of UpdatePrograms, per entry (shaderset.cpp lines 142-150): poll
the timestamp and store it if it strictly advanced. -/
def pollVal (env : Env) (nt : ShaderNameTypePair) (e : ShaderHandleTimestampPair) :
    ShaderHandleTimestampPair :=
  let t := GetShaderFileTimestamp env nt.Name
  if t > e.Timestamp then { e with Timestamp := t } else e

/-- The `timestamp > shader.second.Timestamp` test that admits a shader into
`updatedShaders` (shaderset.cpp line 145). -/
def pollChanged (env : Env) (p : ShaderNameTypePair × ShaderHandleTimestampPair) : Bool :=
  decide (GetShaderFileTimestamp env p.1.Name > p.2.Timestamp)

/-- shaderset.cpp lines 155-168: the full source submitted to glShaderSource,
the concatenation of the three strings of the `strings[]` array. -/
def fullSource (version preamble contents : String) : String :=
  ("#version " ++ version ++ "\n") ++ (preamble ++ "\n") ++ (contents ++ "\n")

/-- Step 2 of UpdatePrograms, per entry (shaderset.cpp lines 153-182): a
shader in `updatedShaders` gets the assembled source submitted and compiled;
others are untouched. -/
def recompileVal (env : Env) (version preamble : String) (chg : List ShaderNameTypePair)
    (nt : ShaderNameTypePair) (e : ShaderHandleTimestampPair) : ShaderHandleTimestampPair :=
  if nt ∈ chg then
    let src := fullSource version preamble (env.file nt.Name)
    { e with glSource := src, glCompiled := env.compileOk src }
  else e

/-- The `programNeedsRelink` test (shaderset.cpp lines 188-202): some element
of the program key is a changed shader (pointer comparison on map nodes). -/
def needsRelink (changedIds : List Nat) (key : List Nat) : Bool :=
  key.any (fun i => changedIds.contains i)

/-- Steps 3-4 of UpdatePrograms, per program entry (shaderset.cpp lines
204-253): relink when a constituent shader changed; on link success the
public handle becomes the internal handle, on failure it becomes 0. -/
def relinkVal (env : Env) (changedIds : List Nat)
    (key : List Nat) (pe : ProgramPublicInternalPair) : ProgramPublicInternalPair :=
  if needsRelink changedIds key then
    { pe with PublicHandle := if env.linkOk pe.InternalHandle then pe.InternalHandle else 0 }
  else pe

/-- Everything one `UpdatePrograms` pass does and observes: the new state plus
the per-pass logs (which shaders were polled, which were admitted into
`updatedShaders`, which sources were submitted to the compiler, which
programs were visited by the relink loop and which were actually relinked). -/
structure UpdateResult where
  state : ShaderSetState
  polled : List ShaderNameTypePair
  changed : List ShaderNameTypePair
  changedIds : List Nat
  submitted : List (ShaderNameTypePair × String)
  visited : List (List Nat)
  relinked : List (List Nat)

/-- ShaderSet::UpdatePrograms (shaderset.cpp lines 138-255).  Each loop of the
C++ code acts on every entry independently, so the loops are embedded as
`map`/`filter` over the registries with the loop bodies as the per-entry
functions above. -/
def UpdatePrograms (env : Env) (s : ShaderSetState) : UpdateResult :=
  let changedPairs := (s.mShaders.filter (fun p => pollChanged env p)).map
      (fun p => (p.1, p.2.ptrId))
  let chgNames := changedPairs.map (fun q => q.1)
  let chgIds := changedPairs.map (fun q => q.2)
  let shaders1 := s.mShaders.map (fun p => (p.1, pollVal env p.1 p.2))
  let shaders2 := shaders1.map
      (fun p => (p.1, recompileVal env s.mVersion s.mPreamble chgNames p.1 p.2))
  let programs1 := s.mPrograms.map (fun q => (q.1, relinkVal env chgIds q.1 q.2))
  { state := { s with mShaders := shaders2, mPrograms := programs1 },
    polled := s.mShaders.map (fun p => p.1),
    changed := chgNames,
    changedIds := chgIds,
    submitted := (shaders1.filter (fun p => decide (p.1 ∈ chgNames))).map
        (fun p => (p.1, fullSource s.mVersion s.mPreamble (env.file p.1.Name))),
    visited := s.mPrograms.map (fun q => q.1),
    relinked := (s.mPrograms.filter (fun q => needsRelink chgIds q.1)).map (fun q => q.1) }

/-- One public operation of the ShaderSet interface, for stating trace
properties. -/
inductive Op where
  | add : List (String × Nat) → Op
  | addExts : List String → Op
  | setVersion : String → Op
  | setPreamble : String → Op
  | update : Env → Op

/-- Effect of one public operation on the state. -/
def runOp (s : ShaderSetState) : Op → ShaderSetState
  | Op.add l => (AddProgram s l).1
  | Op.addExts l => (AddProgramFromExts s l).1
  | Op.setVersion v => { s with mVersion := v }
  | Op.setPreamble p => { s with mPreamble := p }
  | Op.update env => (UpdatePrograms env s).state

/-- Well-formedness of a ShaderSet state: registry keys are unique (std::map),
node identities are unique and below the allocator, and GL handles are
nonzero and below the handle allocator. -/
def WF (s : ShaderSetState) : Prop :=
  (s.mShaders.map (fun p => p.1)).Nodup ∧
  (s.mShaders.map (fun p => p.2.ptrId)).Nodup ∧
  (∀ p ∈ s.mShaders, p.2.ptrId < s.nextPtr) ∧
  (s.mPrograms.map (fun q => q.1)).Nodup ∧
  0 < s.nextHandle ∧
  (∀ p ∈ s.mShaders, p.2.Handle < s.nextHandle ∧ 0 < p.2.Handle) ∧
  (∀ q ∈ s.mPrograms, q.2.InternalHandle < s.nextHandle ∧ 0 < q.2.InternalHandle)

instance (s : ShaderSetState) : Decidable (WF s) := by
  unfold WF
  exact inferInstance

/-- Fields of the entry created for an unseen identity (shaderset.cpp
lines 109-113). -/
def freshEntry (s : ShaderSetState) (nt : ShaderNameTypePair) : ShaderHandleTimestampPair :=
  { Handle := s.nextHandle, Timestamp := 0, ptrId := s.nextPtr,
    glStage := nt.Ty, glSource := "", glCompiled := false }

/-- The node identity of a registered shader (the pointer pushed into
`shaderNameTypes`). -/
def idOf (shaders : List (ShaderNameTypePair × ShaderHandleTimestampPair))
    (nt : ShaderNameTypePair) : Nat :=
  match alookup shaders nt with
  | some e => e.ptrId
  | none => 0

/-- The program entry created for a new canonical key (shaderset.cpp lines
122-133). -/
def freshProgram (s1 : ShaderSetState) (key : List Nat) : ProgramPublicInternalPair :=
  { PublicHandle := 0, InternalHandle := s1.nextHandle,
    glAttached := key.map (fun i => handleOfId s1 i) }

/-! ### Concrete demonstration scenario

A two-shader program over `a.vert` / `b.frag`, plus a two-stage program
sharing the single file `m.glsl`, driven through update passes whose
environments first succeed and then fail. -/

/-- A fresh ShaderSet configured with version "330" and preamble "P". -/
def demoS0 : ShaderSetState := ShaderSetState.init "330" "P"

/-- Registration of a vertex+fragment program on the fresh set. -/
def demoAdd : ShaderSetState × List Nat :=
  AddProgram demoS0 [("a.vert", GL_VERTEX_SHADER), ("b.frag", GL_FRAGMENT_SHADER)]

/-- Environment where every file polls at timestamp 1 with contents "X" and
every compile and link succeeds. -/
def envOk : Env :=
  { stat := fun _ => some 1, file := fun _ => "X",
    compileOk := fun _ => true, linkOk := fun _ => true }

/-- Environment where every file polls at timestamp 2 with contents "Y" and
every compile and link fails. -/
def envBad : Env :=
  { stat := fun _ => some 2, file := fun _ => "Y",
    compileOk := fun _ => false, linkOk := fun _ => false }

/-- Environment where every stat fails (I/O error). -/
def envErr : Env :=
  { stat := fun _ => none, file := fun _ => "",
    compileOk := fun _ => false, linkOk := fun _ => false }

/-- Environment polling timestamp 5 whose compiles and links all fail. -/
def envFail5 : Env :=
  { stat := fun _ => some 5, file := fun _ => "X",
    compileOk := fun _ => false, linkOk := fun _ => false }

/-- First update pass: everything compiles and links. -/
def demoU1 : UpdateResult := UpdatePrograms envOk demoAdd.1

/-- Second update pass: both files changed again, compiles and links fail. -/
def demoU2 : UpdateResult := UpdatePrograms envBad demoU1.state

/-- Registration of a program whose two stages share one physical file. -/
def demoMulti : ShaderSetState × List Nat :=
  AddProgram demoS0 [("m.glsl", GL_VERTEX_SHADER), ("m.glsl", GL_FRAGMENT_SHADER)]

/-- Update pass over the shared-file program. -/
def demoMultiU : UpdateResult := UpdatePrograms envOk demoMulti.1

/-! ### Association-list lemmas -/

theorem alookup_append_some {α β : Type} [DecidableEq α] {l₁ : List (α × β)}
    (l₂ : List (α × β)) {a : α} {b : β} (h : alookup l₁ a = some b) :
    alookup (l₁ ++ l₂) a = some b := by
  induction l₁ with
  | nil => simp [alookup] at h
  | cons hd tl ih =>
    obtain ⟨k, v⟩ := hd
    by_cases hk : k = a
    · subst hk
      simp [alookup] at h ⊢
      exact h
    · simp [alookup, hk] at h ⊢
      exact ih h

theorem alookup_append_none {α β : Type} [DecidableEq α] {l₁ : List (α × β)}
    (l₂ : List (α × β)) {a : α} (h : alookup l₁ a = none) :
    alookup (l₁ ++ l₂) a = alookup l₂ a := by
  induction l₁ with
  | nil => simp
  | cons hd tl ih =>
    obtain ⟨k, v⟩ := hd
    by_cases hk : k = a
    · subst hk; simp [alookup] at h
    · simp [alookup, hk] at h ⊢
      exact ih h

theorem alookup_eq_none_iff {α β : Type} [DecidableEq α] {l : List (α × β)} {a : α} :
    alookup l a = none ↔ a ∉ l.map (fun p => p.1) := by
  induction l with
  | nil => simp [alookup]
  | cons hd tl ih =>
    obtain ⟨k, v⟩ := hd
    by_cases hk : k = a
    · subst hk; simp [alookup]
    · simp only [alookup, if_neg hk, ih, List.map_cons, List.mem_cons]
      constructor
      · intro hn
        rintro (rfl | hm)
        · exact hk rfl
        · exact hn hm
      · intro hn hm
        exact hn (Or.inr hm)

theorem alookup_some_mem {α β : Type} [DecidableEq α] {l : List (α × β)} {a : α} {b : β}
    (h : alookup l a = some b) : (a, b) ∈ l := by
  induction l with
  | nil => simp [alookup] at h
  | cons hd tl ih =>
    obtain ⟨k, v⟩ := hd
    by_cases hk : k = a
    · subst hk
      simp [alookup] at h
      subst h
      exact List.mem_cons_self _ _
    · simp [alookup, hk] at h
      exact List.mem_cons_of_mem _ (ih h)

theorem alookup_map {α β : Type} [DecidableEq α] (g : α → β → β) (l : List (α × β)) (a : α) :
    alookup (l.map (fun p => (p.1, g p.1 p.2))) a = (alookup l a).map (g a) := by
  induction l with
  | nil => simp [alookup]
  | cons hd tl ih =>
    obtain ⟨k, v⟩ := hd
    by_cases hk : k = a
    · subst hk; simp [alookup]
    · simp [alookup, hk, ih]

theorem alookup_isSome_iff {α β : Type} [DecidableEq α] {l : List (α × β)} {a : α} :
    (alookup l a).isSome ↔ a ∈ l.map (fun p => p.1) := by
  rcases h : alookup l a with _ | b
  · simp [alookup_eq_none_iff.mp h]
  · simp
    exact ⟨b, alookup_some_mem h⟩

/-! ### Canonical-key lemmas -/

theorem mem_uniqueAdjacent : ∀ (l : List Nat) (x : Nat), x ∈ uniqueAdjacent l ↔ x ∈ l
  | [], x => by simp [uniqueAdjacent]
  | [a], x => by simp [uniqueAdjacent]
  | a :: b :: rest, x => by
    by_cases hab : a = b
    · subst hab
      rw [show uniqueAdjacent (a :: a :: rest) = uniqueAdjacent (a :: rest) by
        simp [uniqueAdjacent]]
      rw [mem_uniqueAdjacent (a :: rest) x]
      simp [List.mem_cons]
    · rw [show uniqueAdjacent (a :: b :: rest) = a :: uniqueAdjacent (b :: rest) by
        simp [uniqueAdjacent, hab]]
      simp [List.mem_cons, mem_uniqueAdjacent (b :: rest) x]

theorem sorted_lt_uniqueAdjacent : ∀ (l : List Nat),
    l.Sorted (fun a b => a ≤ b) → (uniqueAdjacent l).Sorted (fun a b => a < b)
  | [], _ => by simp [uniqueAdjacent]
  | [a], _ => by simp [uniqueAdjacent]
  | a :: b :: rest, h => by
    have htl : (b :: rest).Sorted (fun a b => a ≤ b) := (List.sorted_cons.mp h).2
    by_cases hab : a = b
    · subst hab
      rw [show uniqueAdjacent (a :: a :: rest) = uniqueAdjacent (a :: rest) by
        simp [uniqueAdjacent]]
      exact sorted_lt_uniqueAdjacent (a :: rest) htl
    · rw [show uniqueAdjacent (a :: b :: rest) = a :: uniqueAdjacent (b :: rest) by
        simp [uniqueAdjacent, hab]]
      rw [List.sorted_cons]
      refine ⟨?_, sorted_lt_uniqueAdjacent (b :: rest) htl⟩
      intro x hx
      have hxmem : x ∈ b :: rest := (mem_uniqueAdjacent _ x).mp hx
      have hab' : a ≤ b := (List.sorted_cons.mp h).1 b (List.mem_cons_self _ _)
      rcases List.mem_cons.mp hxmem with rfl | hxr
      · exact lt_of_le_of_ne hab' hab
      · have hbx : b ≤ x := (List.sorted_cons.mp htl).1 x hxr
        exact lt_of_lt_of_le (lt_of_le_of_ne hab' hab) hbx

theorem mem_canonKey (l : List Nat) (x : Nat) : x ∈ canonKey l ↔ x ∈ l := by
  unfold canonKey
  rw [mem_uniqueAdjacent]
  exact (List.perm_insertionSort (fun a b => a ≤ b) l).mem_iff

theorem sorted_lt_canonKey (l : List Nat) : (canonKey l).Sorted (fun a b => a < b) := by
  unfold canonKey
  exact sorted_lt_uniqueAdjacent _ (List.sorted_insertionSort (fun a b => a ≤ b) l)

theorem canonKey_ext {l₁ l₂ : List Nat} (h : ∀ x, x ∈ l₁ ↔ x ∈ l₂) :
    canonKey l₁ = canonKey l₂ := by
  have hs₁ := sorted_lt_canonKey l₁
  have hs₂ := sorted_lt_canonKey l₂
  have hmem : ∀ x, x ∈ canonKey l₁ ↔ x ∈ canonKey l₂ := by
    intro x
    rw [mem_canonKey, mem_canonKey]
    exact h x
  have hn₁ : (canonKey l₁).Nodup := hs₁.imp (fun hlt => Nat.ne_of_lt hlt)
  have hn₂ : (canonKey l₂).Nodup := hs₂.imp (fun hlt => Nat.ne_of_lt hlt)
  have hperm : List.Perm (canonKey l₁) (canonKey l₂) :=
    (List.perm_ext_iff_of_nodup hn₁ hn₂).mpr hmem
  haveI : IsAntisymm Nat (fun a b => a < b) :=
    ⟨fun a b h1 h2 => absurd h1 (Nat.not_lt.mpr (Nat.le_of_lt h2))⟩
  exact List.eq_of_perm_of_sorted hperm hs₁ hs₂

/-! ### addShader lemmas -/

theorem addShader_found {s : ShaderSetState} {nt : ShaderNameTypePair}
    {e : ShaderHandleTimestampPair} (h : alookup s.mShaders nt = some e) :
    addShader s nt = (s, e.ptrId) := by
  simp [addShader, h]

theorem addShader_new {s : ShaderSetState} {nt : ShaderNameTypePair}
    (h : alookup s.mShaders nt = none) :
    addShader s nt =
      ({ s with mShaders := s.mShaders ++ [(nt, freshEntry s nt)],
                nextPtr := s.nextPtr + 1, nextHandle := s.nextHandle + 1 }, s.nextPtr) := by
  simp [addShader, h, freshEntry]

theorem addShader_mono {s : ShaderSetState} {nt a : ShaderNameTypePair}
    {e : ShaderHandleTimestampPair} (h : alookup s.mShaders a = some e) :
    alookup (addShader s nt).1.mShaders a = some e := by
  rcases hl : alookup s.mShaders nt with _ | e'
  · rw [addShader_new hl]
    exact alookup_append_some _ h
  · rw [addShader_found hl]
    exact h

theorem addShader_self (s : ShaderSetState) (nt : ShaderNameTypePair) :
    ∃ e, alookup (addShader s nt).1.mShaders nt = some e ∧ e.ptrId = (addShader s nt).2 := by
  rcases hl : alookup s.mShaders nt with _ | e'
  · refine ⟨freshEntry s nt, ?_, ?_⟩
    · rw [addShader_new hl]
      simp only []
      rw [alookup_append_none _ hl]
      simp [alookup]
    · rw [addShader_new hl]
      simp [freshEntry]
  · refine ⟨e', ?_, ?_⟩
    · rw [addShader_found hl]
      exact hl
    · rw [addShader_found hl]

theorem addShader_isSome_state {s : ShaderSetState} {nt : ShaderNameTypePair}
    (h : (alookup s.mShaders nt).isSome) : (addShader s nt).1 = s := by
  rcases hl : alookup s.mShaders nt with _ | e'
  · rw [hl] at h; simp at h
  · rw [addShader_found hl]

theorem addShader_programs (s : ShaderSetState) (nt : ShaderNameTypePair) :
    (addShader s nt).1.mPrograms = s.mPrograms := by
  rcases hl : alookup s.mShaders nt with _ | e'
  · rw [addShader_new hl]
  · rw [addShader_found hl]

theorem addShader_config (s : ShaderSetState) (nt : ShaderNameTypePair) :
    (addShader s nt).1.mVersion = s.mVersion ∧ (addShader s nt).1.mPreamble = s.mPreamble := by
  rcases hl : alookup s.mShaders nt with _ | e'
  · rw [addShader_new hl]; exact ⟨rfl, rfl⟩
  · rw [addShader_found hl]; exact ⟨rfl, rfl⟩

theorem addShader_nextHandle_mono (s : ShaderSetState) (nt : ShaderNameTypePair) :
    s.nextHandle ≤ (addShader s nt).1.nextHandle := by
  rcases hl : alookup s.mShaders nt with _ | e'
  · rw [addShader_new hl]; exact Nat.le_succ _
  · rw [addShader_found hl]

theorem addShader_creates_only {s : ShaderSetState} {nt nt' : ShaderNameTypePair}
    {e : ShaderHandleTimestampPair}
    (h0 : alookup s.mShaders nt' = none)
    (h1 : alookup (addShader s nt).1.mShaders nt' = some e) :
    nt' = nt ∧ e = freshEntry s nt := by
  rcases hl : alookup s.mShaders nt with _ | e'
  · rw [addShader_new hl] at h1
    simp only [] at h1
    rw [alookup_append_none _ h0] at h1
    simp [alookup] at h1
    rcases h1 with ⟨h1a, h1b⟩
    exact ⟨h1a.symm, h1b.symm⟩
  · rw [addShader_found hl] at h1
    rw [h0] at h1
    exact absurd h1 (by simp)

theorem addShader_WF {s : ShaderSetState} (nt : ShaderNameTypePair) (h : WF s) :
    WF (addShader s nt).1 := by
  obtain ⟨h1, h2, h3, h4, h5, h6, h7⟩ := h
  rcases hl : alookup s.mShaders nt with _ | e'
  · rw [addShader_new hl]
    refine ⟨?_, ?_, ?_, h4, Nat.lt_succ_of_lt h5, ?_, ?_⟩
    · simp only [List.map_append, List.map_cons, List.map_nil]
      rw [List.nodup_append]
      refine ⟨h1, List.nodup_singleton _, ?_⟩
      intro a ha hb
      simp at hb
      subst hb
      exact (alookup_eq_none_iff.mp hl) ha
    · simp only [List.map_append, List.map_cons, List.map_nil]
      rw [List.nodup_append]
      refine ⟨h2, List.nodup_singleton _, ?_⟩
      intro a ha hb
      simp at hb
      subst hb
      rw [List.mem_map] at ha
      obtain ⟨p, hp, hpid⟩ := ha
      exact absurd (hpid ▸ h3 p hp) (Nat.lt_irrefl _)
    · intro p hp
      rcases List.mem_append.mp hp with hp | hp
      · exact Nat.lt_succ_of_lt (h3 p hp)
      · simp at hp
        subst hp
        exact Nat.lt_succ_self _
    · intro p hp
      rcases List.mem_append.mp hp with hp | hp
      · exact ⟨Nat.lt_succ_of_lt (h6 p hp).1, (h6 p hp).2⟩
      · simp at hp
        subst hp
        exact ⟨Nat.lt_succ_self _, h5⟩
    · intro q hq
      exact ⟨Nat.lt_succ_of_lt (h7 q hq).1, (h7 q hq).2⟩
  · rw [addShader_found hl]
    exact ⟨h1, h2, h3, h4, h5, h6, h7⟩

/-! ### addShadersLoop lemmas -/

theorem addShadersLoop_nil (s : ShaderSetState) : addShadersLoop s [] = (s, []) := rfl

theorem addShadersLoop_cons (s : ShaderSetState) (p : String × Nat) (rest : List (String × Nat)) :
    addShadersLoop s (p :: rest) =
      ((addShadersLoop (addShader s { Name := p.1, Ty := p.2 }).1 rest).1,
       (addShader s { Name := p.1, Ty := p.2 }).2 ::
         (addShadersLoop (addShader s { Name := p.1, Ty := p.2 }).1 rest).2) := rfl

theorem loop_mono : ∀ (l : List (String × Nat)) (s : ShaderSetState)
    {a : ShaderNameTypePair} {e : ShaderHandleTimestampPair},
    alookup s.mShaders a = some e → alookup (addShadersLoop s l).1.mShaders a = some e
  | [], s, a, e, h => h
  | p :: rest, s, a, e, h => by
    rw [addShadersLoop_cons]
    exact loop_mono rest _ (addShader_mono h)

theorem loop_present : ∀ (l : List (String × Nat)) (s : ShaderSetState)
    (p : String × Nat), p ∈ l →
    ∃ e, alookup (addShadersLoop s l).1.mShaders { Name := p.1, Ty := p.2 } = some e
  | [], s, p, h => absurd h (List.not_mem_nil p)
  | q :: rest, s, p, h => by
    rw [addShadersLoop_cons]
    rcases List.mem_cons.mp h with rfl | hr
    · obtain ⟨e, he, _⟩ := addShader_self s { Name := p.1, Ty := p.2 }
      exact ⟨e, loop_mono rest _ he⟩
    · exact loop_present rest _ p hr

theorem loop_ids : ∀ (l : List (String × Nat)) (s : ShaderSetState),
    (addShadersLoop s l).2 =
      l.map (fun p => idOf (addShadersLoop s l).1.mShaders { Name := p.1, Ty := p.2 })
  | [], s => rfl
  | p :: rest, s => by
    rw [addShadersLoop_cons]
    simp only [List.map_cons, List.cons.injEq]
    constructor
    · obtain ⟨e, he, hid⟩ := addShader_self s { Name := p.1, Ty := p.2 }
      have hfin := loop_mono rest _ he
      simp only [idOf, hfin]
      exact hid.symm
    · exact loop_ids rest _

theorem loop_pure : ∀ (l : List (String × Nat)) (s : ShaderSetState),
    (∀ p ∈ l, (alookup s.mShaders { Name := p.1, Ty := p.2 }).isSome) →
    addShadersLoop s l = (s, l.map (fun p => idOf s.mShaders { Name := p.1, Ty := p.2 }))
  | [], s, _ => rfl
  | p :: rest, s, h => by
    have hp := h p (List.mem_cons_self _ _)
    rcases he : alookup s.mShaders { Name := p.1, Ty := p.2 } with _ | e
    · rw [he] at hp; simp at hp
    · rw [addShadersLoop_cons]
      rw [addShader_found he]
      rw [loop_pure rest s (fun q hq => h q (List.mem_cons_of_mem _ hq))]
      simp [idOf, he]

theorem loop_programs : ∀ (l : List (String × Nat)) (s : ShaderSetState),
    (addShadersLoop s l).1.mPrograms = s.mPrograms
  | [], s => rfl
  | p :: rest, s => by
    rw [addShadersLoop_cons]
    rw [loop_programs rest _]
    exact addShader_programs s _

theorem loop_config : ∀ (l : List (String × Nat)) (s : ShaderSetState),
    (addShadersLoop s l).1.mVersion = s.mVersion ∧
    (addShadersLoop s l).1.mPreamble = s.mPreamble
  | [], s => ⟨rfl, rfl⟩
  | p :: rest, s => by
    rw [addShadersLoop_cons]
    obtain ⟨h1, h2⟩ := loop_config rest (addShader s { Name := p.1, Ty := p.2 }).1
    obtain ⟨h3, h4⟩ := addShader_config s { Name := p.1, Ty := p.2 }
    exact ⟨h1.trans h3, h2.trans h4⟩

theorem loop_nextHandle_mono : ∀ (l : List (String × Nat)) (s : ShaderSetState),
    s.nextHandle ≤ (addShadersLoop s l).1.nextHandle
  | [], s => Nat.le_refl _
  | p :: rest, s => by
    rw [addShadersLoop_cons]
    exact Nat.le_trans (addShader_nextHandle_mono s _) (loop_nextHandle_mono rest _)

theorem loop_WF : ∀ (l : List (String × Nat)) (s : ShaderSetState), WF s →
    WF (addShadersLoop s l).1
  | [], s, h => h
  | p :: rest, s, h => by
    rw [addShadersLoop_cons]
    exact loop_WF rest _ (addShader_WF _ h)

theorem loop_new : ∀ (l : List (String × Nat)) (s : ShaderSetState) (p : String × Nat),
    0 < s.nextHandle → p ∈ l → alookup s.mShaders { Name := p.1, Ty := p.2 } = none →
    ∃ e, alookup (addShadersLoop s l).1.mShaders { Name := p.1, Ty := p.2 } = some e ∧
      e.Timestamp = 0 ∧ e.glCompiled = false ∧ e.glSource = "" ∧
      e.glStage = p.2 ∧ 0 < e.Handle
  | [], s, p, _, h, _ => absurd h (List.not_mem_nil p)
  | q :: rest, s, p, hh, h, h0 => by
    rw [addShadersLoop_cons]
    rcases List.mem_cons.mp h with rfl | hr
    · rw [addShader_new h0]
      have he : alookup (s.mShaders ++ [({ Name := p.1, Ty := p.2 }, freshEntry s { Name := p.1, Ty := p.2 })])
          { Name := p.1, Ty := p.2 } = some (freshEntry s { Name := p.1, Ty := p.2 }) := by
        rw [alookup_append_none _ h0]
        simp [alookup]
      refine ⟨freshEntry s { Name := p.1, Ty := p.2 }, ?_, rfl, rfl, rfl, rfl, hh⟩
      exact loop_mono rest _ he
    · rcases h1 : alookup (addShader s { Name := q.1, Ty := q.2 }).1.mShaders
          { Name := p.1, Ty := p.2 } with _ | e
      · exact loop_new rest _ p
          (Nat.lt_of_lt_of_le hh (addShader_nextHandle_mono s _)) hr h1
      · obtain ⟨hnt, hef⟩ := addShader_creates_only h0 h1
        have hprops : e.Timestamp = 0 ∧ e.glCompiled = false ∧ e.glSource = "" ∧
            e.glStage = p.2 ∧ 0 < e.Handle := by
          subst hef
          have : ({ Name := p.1, Ty := p.2 } : ShaderNameTypePair).Ty = p.2 := rfl
          refine ⟨rfl, rfl, rfl, ?_, hh⟩
          rw [show ({ Name := q.1, Ty := q.2 } : ShaderNameTypePair) = { Name := p.1, Ty := p.2 } from hnt.symm]
          simp [freshEntry]
        exact ⟨e, loop_mono rest _ h1, hprops⟩

/-! ### AddProgram lemmas -/

theorem AddProgram_found {s : ShaderSetState} {l : List (String × Nat)}
    {pe : ProgramPublicInternalPair}
    (h : alookup (addShadersLoop s l).1.mPrograms (canonKey (addShadersLoop s l).2) = some pe) :
    AddProgram s l = ((addShadersLoop s l).1, canonKey (addShadersLoop s l).2) := by
  simp [AddProgram, h]

theorem AddProgram_newEq {s : ShaderSetState} {l : List (String × Nat)}
    (h : alookup (addShadersLoop s l).1.mPrograms (canonKey (addShadersLoop s l).2) = none) :
    AddProgram s l =
      ({ (addShadersLoop s l).1 with
          mPrograms := (addShadersLoop s l).1.mPrograms ++
            [(canonKey (addShadersLoop s l).2,
              freshProgram (addShadersLoop s l).1 (canonKey (addShadersLoop s l).2))],
          nextHandle := (addShadersLoop s l).1.nextHandle + 1 },
       canonKey (addShadersLoop s l).2) := by
  simp [AddProgram, h, freshProgram]

theorem AddProgram_key (s : ShaderSetState) (l : List (String × Nat)) :
    (AddProgram s l).2 = canonKey (addShadersLoop s l).2 := by
  rcases h : alookup (addShadersLoop s l).1.mPrograms (canonKey (addShadersLoop s l).2) with _ | pe
  · rw [AddProgram_newEq h]
  · rw [AddProgram_found h]

theorem AddProgram_shaders (s : ShaderSetState) (l : List (String × Nat)) :
    (AddProgram s l).1.mShaders = (addShadersLoop s l).1.mShaders := by
  rcases h : alookup (addShadersLoop s l).1.mPrograms (canonKey (addShadersLoop s l).2) with _ | pe
  · rw [AddProgram_newEq h]
  · rw [AddProgram_found h]

theorem AddProgram_config (s : ShaderSetState) (l : List (String × Nat)) :
    (AddProgram s l).1.mVersion = s.mVersion ∧ (AddProgram s l).1.mPreamble = s.mPreamble := by
  have hc := loop_config l s
  rcases h : alookup (addShadersLoop s l).1.mPrograms (canonKey (addShadersLoop s l).2) with _ | pe
  · rw [AddProgram_newEq h]; exact hc
  · rw [AddProgram_found h]; exact hc

theorem AddProgram_key_present (s : ShaderSetState) (l : List (String × Nat)) :
    ∃ pe, alookup (AddProgram s l).1.mPrograms (AddProgram s l).2 = some pe := by
  rcases h : alookup (addShadersLoop s l).1.mPrograms (canonKey (addShadersLoop s l).2) with _ | pe
  · rw [AddProgram_newEq h]
    refine ⟨freshProgram (addShadersLoop s l).1 (canonKey (addShadersLoop s l).2), ?_⟩
    simp only []
    rw [alookup_append_none _ h]
    simp [alookup]
  · rw [AddProgram_found h]
    exact ⟨pe, h⟩

theorem AddProgram_preserves_programs {s : ShaderSetState} {l : List (String × Nat)}
    {k : List Nat} {pe : ProgramPublicInternalPair}
    (h : alookup s.mPrograms k = some pe) :
    alookup (AddProgram s l).1.mPrograms k = some pe := by
  have hl : alookup (addShadersLoop s l).1.mPrograms k = some pe := by
    rw [loop_programs l s]; exact h
  rcases h0 : alookup (addShadersLoop s l).1.mPrograms (canonKey (addShadersLoop s l).2) with _ | pe'
  · rw [AddProgram_newEq h0]
    exact alookup_append_some _ hl
  · rw [AddProgram_found h0]
    exact hl

theorem AddProgram_creates_only {s : ShaderSetState} {l : List (String × Nat)}
    {k : List Nat} {pe : ProgramPublicInternalPair}
    (h0 : alookup s.mPrograms k = none)
    (h1 : alookup (AddProgram s l).1.mPrograms k = some pe) :
    k = (AddProgram s l).2 ∧
    pe = freshProgram (addShadersLoop s l).1 (canonKey (addShadersLoop s l).2) := by
  have hl0 : alookup (addShadersLoop s l).1.mPrograms k = none := by
    rw [loop_programs l s]; exact h0
  rcases h2 : alookup (addShadersLoop s l).1.mPrograms (canonKey (addShadersLoop s l).2) with _ | pe'
  · rw [AddProgram_newEq h2] at h1
    simp only [] at h1
    rw [alookup_append_none _ hl0] at h1
    simp [alookup] at h1
    rcases h1 with ⟨h1a, h1b⟩
    rw [AddProgram_newEq h2]
    exact ⟨h1a.symm, h1b.symm⟩
  · rw [AddProgram_found h2] at h1
    rw [hl0] at h1
    exact absurd h1 (by simp)

theorem AddProgram_WF {s : ShaderSetState} (l : List (String × Nat)) (h : WF s) :
    WF (AddProgram s l).1 := by
  have hWF1 : WF (addShadersLoop s l).1 := loop_WF l s h
  obtain ⟨h1, h2, h3, h4, h5, h6, h7⟩ := hWF1
  rcases h0 : alookup (addShadersLoop s l).1.mPrograms (canonKey (addShadersLoop s l).2) with _ | pe
  · rw [AddProgram_newEq h0]
    refine ⟨h1, h2, h3, ?_, Nat.lt_succ_of_lt h5, ?_, ?_⟩
    · simp only [List.map_append, List.map_cons, List.map_nil]
      rw [List.nodup_append]
      refine ⟨h4, List.nodup_singleton _, ?_⟩
      intro a ha hb
      simp at hb
      subst hb
      exact (alookup_eq_none_iff.mp h0) ha
    · intro p hp
      exact ⟨Nat.lt_succ_of_lt (h6 p hp).1, (h6 p hp).2⟩
    · intro q hq
      rcases List.mem_append.mp hq with hq | hq
      · exact ⟨Nat.lt_succ_of_lt (h7 q hq).1, (h7 q hq).2⟩
      · simp at hq
        rw [hq]
        exact ⟨Nat.lt_succ_self _, h5⟩
  · rw [AddProgram_found h0]
    exact ⟨h1, h2, h3, h4, h5, h6, h7⟩

/-! ### UpdatePrograms lemmas -/

theorem update_changed_def (env : Env) (s : ShaderSetState) :
    (UpdatePrograms env s).changed =
      ((s.mShaders.filter (fun p => pollChanged env p)).map (fun p => (p.1, p.2.ptrId))).map
        (fun q => q.1) := rfl

theorem update_changedIds_def (env : Env) (s : ShaderSetState) :
    (UpdatePrograms env s).changedIds =
      ((s.mShaders.filter (fun p => pollChanged env p)).map (fun p => (p.1, p.2.ptrId))).map
        (fun q => q.2) := rfl

theorem update_submitted_def (env : Env) (s : ShaderSetState) :
    (UpdatePrograms env s).submitted =
      ((s.mShaders.map (fun p => (p.1, pollVal env p.1 p.2))).filter
          (fun p => decide (p.1 ∈ (UpdatePrograms env s).changed))).map
        (fun p => (p.1, fullSource s.mVersion s.mPreamble (env.file p.1.Name))) := rfl

theorem update_shaders_lookup (env : Env) (s : ShaderSetState) (nt : ShaderNameTypePair) :
    alookup (UpdatePrograms env s).state.mShaders nt =
      (alookup s.mShaders nt).map
        (fun e => recompileVal env s.mVersion s.mPreamble (UpdatePrograms env s).changed nt
          (pollVal env nt e)) := by
  show alookup ((s.mShaders.map (fun p => (p.1, pollVal env p.1 p.2))).map
      (fun p => (p.1, recompileVal env s.mVersion s.mPreamble (UpdatePrograms env s).changed p.1 p.2))) nt = _
  rw [List.map_map]
  exact alookup_map
    (fun a b => recompileVal env s.mVersion s.mPreamble (UpdatePrograms env s).changed a
      (pollVal env a b)) s.mShaders nt

theorem update_programs_lookup (env : Env) (s : ShaderSetState) (key : List Nat) :
    alookup (UpdatePrograms env s).state.mPrograms key =
      (alookup s.mPrograms key).map
        (fun pe => relinkVal env (UpdatePrograms env s).changedIds key pe) := by
  exact alookup_map (fun k pe => relinkVal env (UpdatePrograms env s).changedIds k pe)
    s.mPrograms key

theorem update_relinked_iff (env : Env) (s : ShaderSetState) (key : List Nat) :
    key ∈ (UpdatePrograms env s).relinked ↔
      key ∈ s.mPrograms.map (fun q => q.1) ∧
        needsRelink (UpdatePrograms env s).changedIds key = true := by
  show key ∈ (s.mPrograms.filter (fun q => needsRelink (UpdatePrograms env s).changedIds q.1)).map
      (fun q => q.1) ↔ _
  simp only [List.mem_map, List.mem_filter]
  constructor
  · rintro ⟨q, ⟨hq, hneed⟩, rfl⟩
    exact ⟨⟨q, hq, rfl⟩, hneed⟩
  · rintro ⟨⟨q, hq, rfl⟩, hneed⟩
    exact ⟨q, ⟨hq, hneed⟩, rfl⟩

/-- With unique registry keys, membership and lookup agree. -/
theorem mem_iff_alookup {α β : Type} [DecidableEq α] {l : List (α × β)}
    (hnd : (l.map (fun p => p.1)).Nodup) (a : α) (b : β) :
    (a, b) ∈ l ↔ alookup l a = some b := by
  induction l with
  | nil => simp [alookup]
  | cons hd tl ih =>
    obtain ⟨k, v⟩ := hd
    simp only [List.map_cons, List.nodup_cons] at hnd
    by_cases hk : k = a
    · subst hk
      have hlk : alookup ((k, v) :: tl) k = some v := by simp [alookup]
      rw [hlk]
      simp only [List.mem_cons, Option.some.injEq]
      constructor
      · intro h
        rcases h with h | h
        · exact (congrArg Prod.snd h).symm
        · exact absurd (List.mem_map.mpr ⟨(k, b), h, rfl⟩) hnd.1
      · intro h
        subst h
        exact Or.inl rfl
    · simp only [alookup, if_neg hk, List.mem_cons]
      rw [ih hnd.2]
      constructor
      · rintro (h | h)
        · exact absurd (congrArg Prod.fst h).symm hk
        · exact h
      · exact Or.inr

theorem update_changed_iff (env : Env) (s : ShaderSetState)
    (hnd : (s.mShaders.map (fun p => p.1)).Nodup)
    {nt : ShaderNameTypePair} {e : ShaderHandleTimestampPair}
    (hl : alookup s.mShaders nt = some e) :
    nt ∈ (UpdatePrograms env s).changed ↔
      GetShaderFileTimestamp env nt.Name > e.Timestamp := by
  rw [update_changed_def]
  simp only [List.map_map, List.mem_map, List.mem_filter, Function.comp]
  constructor
  · rintro ⟨⟨nt', e'⟩, ⟨hp, hch⟩, heq⟩
    have heq' : nt' = nt := heq
    subst heq'
    have hsome := (mem_iff_alookup hnd nt' e').mp hp
    rw [hsome] at hl
    have he : e' = e := Option.some.inj hl
    subst he
    exact of_decide_eq_true hch
  · intro h
    refine ⟨(nt, e), ⟨(mem_iff_alookup hnd nt e).mpr hl, ?_⟩, rfl⟩
    simp only [pollChanged]
    exact decide_eq_true h

theorem update_submitted_form {env : Env} {s : ShaderSetState}
    {nt : ShaderNameTypePair} {str : String}
    (h : (nt, str) ∈ (UpdatePrograms env s).submitted) :
    str = fullSource s.mVersion s.mPreamble (env.file nt.Name) ∧
    nt ∈ (UpdatePrograms env s).changed := by
  rw [update_submitted_def] at h
  simp only [List.mem_map, List.mem_filter] at h
  obtain ⟨p, ⟨hp, hmem⟩, heq⟩ := h
  have h1 : p.1 = nt := congrArg Prod.fst heq
  have h2 : str = fullSource s.mVersion s.mPreamble (env.file p.1.Name) :=
    (congrArg Prod.snd heq).symm
  subst h1
  exact ⟨h2, of_decide_eq_true hmem⟩

theorem update_not_submitted {env : Env} {s : ShaderSetState} {nt : ShaderNameTypePair}
    (h : nt ∉ (UpdatePrograms env s).changed) (str : String) :
    (nt, str) ∉ (UpdatePrograms env s).submitted := by
  intro hmem
  exact h (update_submitted_form hmem).2

theorem needsRelink_iff (ids key : List Nat) :
    needsRelink ids key = true ↔ ∃ i ∈ key, i ∈ ids := by
  unfold needsRelink
  rw [List.any_eq_true]
  constructor
  · rintro ⟨i, hi, hc⟩
    exact ⟨i, hi, List.elem_iff.mp hc⟩
  · rintro ⟨i, hi, hc⟩
    exact ⟨i, hi, List.elem_iff.mpr hc⟩

/-! ### Per-entry field preservation -/

theorem pollVal_fields (env : Env) (nt : ShaderNameTypePair) (e : ShaderHandleTimestampPair) :
    (pollVal env nt e).Handle = e.Handle ∧ (pollVal env nt e).ptrId = e.ptrId ∧
    (pollVal env nt e).glStage = e.glStage ∧ (pollVal env nt e).glSource = e.glSource ∧
    (pollVal env nt e).glCompiled = e.glCompiled := by
  unfold pollVal
  by_cases h : GetShaderFileTimestamp env nt.Name > e.Timestamp
  · simp [h]
  · simp [h]

theorem pollVal_timestamp (env : Env) (nt : ShaderNameTypePair) (e : ShaderHandleTimestampPair) :
    (pollVal env nt e).Timestamp =
      (if GetShaderFileTimestamp env nt.Name > e.Timestamp
       then GetShaderFileTimestamp env nt.Name else e.Timestamp) := by
  unfold pollVal
  by_cases h : GetShaderFileTimestamp env nt.Name > e.Timestamp
  · simp [h]
  · simp [h]

theorem pollVal_not_changed {env : Env} {nt : ShaderNameTypePair} {e : ShaderHandleTimestampPair}
    (h : ¬ GetShaderFileTimestamp env nt.Name > e.Timestamp) : pollVal env nt e = e := by
  unfold pollVal
  simp [h]

theorem recompileVal_fields (env : Env) (v p : String) (chg : List ShaderNameTypePair)
    (nt : ShaderNameTypePair) (e : ShaderHandleTimestampPair) :
    (recompileVal env v p chg nt e).Handle = e.Handle ∧
    (recompileVal env v p chg nt e).ptrId = e.ptrId ∧
    (recompileVal env v p chg nt e).Timestamp = e.Timestamp ∧
    (recompileVal env v p chg nt e).glStage = e.glStage := by
  unfold recompileVal
  by_cases h : nt ∈ chg
  · simp [h]
  · simp [h]

theorem recompileVal_not_changed {env : Env} {v p : String} {chg : List ShaderNameTypePair}
    {nt : ShaderNameTypePair} (e : ShaderHandleTimestampPair) (h : nt ∉ chg) :
    recompileVal env v p chg nt e = e := by
  unfold recompileVal
  simp [h]

theorem recompileVal_changed {env : Env} {v p : String} {chg : List ShaderNameTypePair}
    {nt : ShaderNameTypePair} (e : ShaderHandleTimestampPair) (h : nt ∈ chg) :
    recompileVal env v p chg nt e =
      { e with glSource := fullSource v p (env.file nt.Name),
               glCompiled := env.compileOk (fullSource v p (env.file nt.Name)) } := by
  unfold recompileVal
  simp [h]

theorem relinkVal_internal (env : Env) (ids key : List Nat) (pe : ProgramPublicInternalPair) :
    (relinkVal env ids key pe).InternalHandle = pe.InternalHandle ∧
    (relinkVal env ids key pe).glAttached = pe.glAttached := by
  unfold relinkVal
  by_cases h : needsRelink ids key = true
  · simp [h]
  · simp [h]

theorem relinkVal_not_needed {env : Env} {ids key : List Nat} (pe : ProgramPublicInternalPair)
    (h : ¬ needsRelink ids key = true) : relinkVal env ids key pe = pe := by
  unfold relinkVal
  simp [h]

theorem relinkVal_needed {env : Env} {ids key : List Nat} (pe : ProgramPublicInternalPair)
    (h : needsRelink ids key = true) :
    relinkVal env ids key pe =
      { pe with PublicHandle :=
          if env.linkOk pe.InternalHandle then pe.InternalHandle else 0 } := by
  unfold relinkVal
  simp [h]

/-! ### WF preservation and domain preservation under UpdatePrograms -/

theorem update_shaders_fst (env : Env) (s : ShaderSetState) :
    (UpdatePrograms env s).state.mShaders.map (fun p => p.1) =
      s.mShaders.map (fun p => p.1) := by
  show ((s.mShaders.map (fun p => (p.1, pollVal env p.1 p.2))).map
      (fun p => (p.1, recompileVal env s.mVersion s.mPreamble (UpdatePrograms env s).changed p.1 p.2))).map
      (fun p => p.1) = _
  rw [List.map_map, List.map_map]
  rfl

theorem update_programs_fst (env : Env) (s : ShaderSetState) :
    (UpdatePrograms env s).state.mPrograms.map (fun q => q.1) =
      s.mPrograms.map (fun q => q.1) := by
  show (s.mPrograms.map (fun q => (q.1, relinkVal env (UpdatePrograms env s).changedIds q.1 q.2))).map
      (fun q => q.1) = _
  rw [List.map_map]
  rfl

theorem update_alloc (env : Env) (s : ShaderSetState) :
    (UpdatePrograms env s).state.nextPtr = s.nextPtr ∧
    (UpdatePrograms env s).state.nextHandle = s.nextHandle ∧
    (UpdatePrograms env s).state.mVersion = s.mVersion ∧
    (UpdatePrograms env s).state.mPreamble = s.mPreamble := ⟨rfl, rfl, rfl, rfl⟩

theorem update_shaders_mem {env : Env} {s : ShaderSetState}
    {p : ShaderNameTypePair × ShaderHandleTimestampPair}
    (h : p ∈ (UpdatePrograms env s).state.mShaders) :
    ∃ q ∈ s.mShaders, p = (q.1, recompileVal env s.mVersion s.mPreamble
      (UpdatePrograms env s).changed q.1 (pollVal env q.1 q.2)) := by
  have h' : p ∈ (s.mShaders.map (fun q => (q.1, pollVal env q.1 q.2))).map
      (fun q => (q.1, recompileVal env s.mVersion s.mPreamble (UpdatePrograms env s).changed q.1 q.2)) := h
  rw [List.map_map] at h'
  rw [List.mem_map] at h'
  obtain ⟨q, hq, heq⟩ := h'
  exact ⟨q, hq, heq.symm⟩

theorem update_programs_mem {env : Env} {s : ShaderSetState}
    {q : List Nat × ProgramPublicInternalPair}
    (h : q ∈ (UpdatePrograms env s).state.mPrograms) :
    ∃ q0 ∈ s.mPrograms, q = (q0.1, relinkVal env (UpdatePrograms env s).changedIds q0.1 q0.2) := by
  have h' : q ∈ s.mPrograms.map
      (fun q0 => (q0.1, relinkVal env (UpdatePrograms env s).changedIds q0.1 q0.2)) := h
  rw [List.mem_map] at h'
  obtain ⟨q0, hq, heq⟩ := h'
  exact ⟨q0, hq, heq.symm⟩

theorem update_WF (env : Env) {s : ShaderSetState} (h : WF s) :
    WF (UpdatePrograms env s).state := by
  obtain ⟨h1, h2, h3, h4, h5, h6, h7⟩ := h
  refine ⟨?_, ?_, ?_, ?_, ?_, ?_, ?_⟩
  · rw [update_shaders_fst]; exact h1
  · have : (UpdatePrograms env s).state.mShaders.map (fun p => p.2.ptrId) =
        s.mShaders.map (fun p => p.2.ptrId) := by
      show ((s.mShaders.map (fun p => (p.1, pollVal env p.1 p.2))).map
          (fun p => (p.1, recompileVal env s.mVersion s.mPreamble (UpdatePrograms env s).changed p.1 p.2))).map
          (fun p => p.2.ptrId) = _
      rw [List.map_map, List.map_map]
      apply List.map_congr_left
      intro q hq
      show (recompileVal env s.mVersion s.mPreamble (UpdatePrograms env s).changed q.1
        (pollVal env q.1 q.2)).ptrId = q.2.ptrId
      rw [(recompileVal_fields _ _ _ _ _ _).2.1, (pollVal_fields _ _ _).2.1]
    rw [this]; exact h2
  · intro p hp
    obtain ⟨q, hq, rfl⟩ := update_shaders_mem hp
    show (recompileVal env s.mVersion s.mPreamble (UpdatePrograms env s).changed q.1
      (pollVal env q.1 q.2)).ptrId < (UpdatePrograms env s).state.nextPtr
    rw [(recompileVal_fields _ _ _ _ _ _).2.1, (pollVal_fields _ _ _).2.1, (update_alloc env s).1]
    exact h3 q hq
  · rw [update_programs_fst]; exact h4
  · rw [(update_alloc env s).2.1]; exact h5
  · intro p hp
    obtain ⟨q, hq, rfl⟩ := update_shaders_mem hp
    have hH : (recompileVal env s.mVersion s.mPreamble (UpdatePrograms env s).changed q.1
        (pollVal env q.1 q.2)).Handle = q.2.Handle := by
      rw [(recompileVal_fields _ _ _ _ _ _).1, (pollVal_fields _ _ _).1]
    show (recompileVal env s.mVersion s.mPreamble (UpdatePrograms env s).changed q.1
      (pollVal env q.1 q.2)).Handle < (UpdatePrograms env s).state.nextHandle ∧
      0 < (recompileVal env s.mVersion s.mPreamble (UpdatePrograms env s).changed q.1
      (pollVal env q.1 q.2)).Handle
    rw [hH, (update_alloc env s).2.1]
    exact h6 q hq
  · intro q hq
    obtain ⟨q0, hq0, rfl⟩ := update_programs_mem hq
    show (relinkVal env (UpdatePrograms env s).changedIds q0.1 q0.2).InternalHandle <
        (UpdatePrograms env s).state.nextHandle ∧
      0 < (relinkVal env (UpdatePrograms env s).changedIds q0.1 q0.2).InternalHandle
    rw [(relinkVal_internal _ _ _ _).1, (update_alloc env s).2.1]
    exact h7 q0 hq0

/-! ### Claim theorems -/

/-- C8: UpdatePrograms always completes its full pass: it is a total function
of the state and environment (so no exception or abort can occur, all
failures being value/state signals in `Env` and the entry fields), the
change-detection loop polls every registered shader, the relink loop visits
every registered program, and both registries keep exactly their keys even
when individual stats, compiles, or links fail. -/
theorem C8_full_pass (s : ShaderSetState) (env : Env) :
    (UpdatePrograms env s).polled = s.mShaders.map (fun p => p.1) ∧
    (UpdatePrograms env s).visited = s.mPrograms.map (fun q => q.1) ∧
    (UpdatePrograms env s).state.mShaders.map (fun p => p.1) =
      s.mShaders.map (fun p => p.1) ∧
    (UpdatePrograms env s).state.mPrograms.map (fun q => q.1) =
      s.mPrograms.map (fun q => q.1) :=
  ⟨rfl, rfl, update_shaders_fst env s, update_programs_fst env s⟩

/-- C5: a shader is marked changed iff the freshly polled timestamp strictly
exceeds the stored one; a failed stat polls as 0 and hence never marks the
shader changed; and a shader not marked changed is left completely untouched
(same handle and compiled state) and has no source submitted to the compiler,
whatever the file's contents are. -/
theorem C5_change_detection (s : ShaderSetState) (env : Env)
    (nt : ShaderNameTypePair) (e : ShaderHandleTimestampPair)
    (hWF : WF s) (hl : alookup s.mShaders nt = some e) :
    (env.stat nt.Name = none → GetShaderFileTimestamp env nt.Name = 0) ∧
    (nt ∈ (UpdatePrograms env s).changed ↔
       GetShaderFileTimestamp env nt.Name > e.Timestamp) ∧
    (env.stat nt.Name = none → nt ∉ (UpdatePrograms env s).changed) ∧
    (nt ∉ (UpdatePrograms env s).changed →
       alookup (UpdatePrograms env s).state.mShaders nt = some e ∧
       ∀ str, (nt, str) ∉ (UpdatePrograms env s).submitted) := by
  have hiff := update_changed_iff env s hWF.1 hl
  refine ⟨?_, hiff, ?_, ?_⟩
  · intro h
    simp [GetShaderFileTimestamp, h]
  · intro h
    rw [hiff]
    simp [GetShaderFileTimestamp, h]
  · intro h
    refine ⟨?_, update_not_submitted h⟩
    have hnp : ¬ GetShaderFileTimestamp env nt.Name > e.Timestamp := fun hgt => h (hiff.mpr hgt)
    rw [update_shaders_lookup, hl]
    simp only [Option.map_some']
    rw [pollVal_not_changed hnp, recompileVal_not_changed e h]

/-- C9: once a pass observes an advanced timestamp it stores it, and the
shader is not polled as changed (hence not recompiled) by a following pass
whose polled timestamp does not strictly exceed the stored one — with no
assumption on the first pass's compile outcome, so a failed compile is not
retried. -/
theorem C9_no_retry (s : ShaderSetState) (env1 env2 : Env)
    (nt : ShaderNameTypePair) (e : ShaderHandleTimestampPair)
    (hWF : WF s) (hl : alookup s.mShaders nt = some e)
    (hch : GetShaderFileTimestamp env1 nt.Name > e.Timestamp)
    (hts : GetShaderFileTimestamp env2 nt.Name ≤ GetShaderFileTimestamp env1 nt.Name) :
    (∃ e1, alookup (UpdatePrograms env1 s).state.mShaders nt = some e1 ∧
       e1.Timestamp = GetShaderFileTimestamp env1 nt.Name) ∧
    nt ∉ (UpdatePrograms env2 (UpdatePrograms env1 s).state).changed ∧
    ∀ str, (nt, str) ∉ (UpdatePrograms env2 (UpdatePrograms env1 s).state).submitted := by
  have hWF1 : WF (UpdatePrograms env1 s).state := update_WF env1 hWF
  have hl1 : alookup (UpdatePrograms env1 s).state.mShaders nt =
      some (recompileVal env1 s.mVersion s.mPreamble (UpdatePrograms env1 s).changed nt
        (pollVal env1 nt e)) := by
    rw [update_shaders_lookup, hl]
    simp only [Option.map_some']
  have hT : (recompileVal env1 s.mVersion s.mPreamble (UpdatePrograms env1 s).changed nt
      (pollVal env1 nt e)).Timestamp = GetShaderFileTimestamp env1 nt.Name := by
    rw [(recompileVal_fields _ _ _ _ _ _).2.2.1, pollVal_timestamp]
    simp [hch]
  have hiff2 := update_changed_iff env2 (UpdatePrograms env1 s).state hWF1.1 hl1
  have hnot : nt ∉ (UpdatePrograms env2 (UpdatePrograms env1 s).state).changed := by
    rw [hiff2, hT]
    exact fun hgt => absurd hts (Nat.not_le.mpr hgt)
  exact ⟨⟨_, hl1, hT⟩, hnot, update_not_submitted hnot⟩

/-- C2 (amended): the source submitted for every recompiled shader is the
ordered concatenation of exactly three parts — the version directive
"#version <version>\n", the preamble followed by a newline, and the file's
contents followed by a newline.  No stage-specific define is included, so the
submission is identical for every stage compiled from the same file. -/
theorem C2_three_part_source (s : ShaderSetState) (env : Env)
    (nt : ShaderNameTypePair) (str : String)
    (h : (nt, str) ∈ (UpdatePrograms env s).submitted) :
    str = ("#version " ++ s.mVersion ++ "\n") ++ (s.mPreamble ++ "\n") ++
      (env.file nt.Name ++ "\n") :=
  (update_submitted_form h).1

/-- Witness for C2_three_part_source at the demo scenario's vertex shader. -/
theorem C2_three_part_source_witness :
    "#version 330\nP\nX\n" =
      ("#version " ++ demoAdd.1.mVersion ++ "\n") ++ (demoAdd.1.mPreamble ++ "\n") ++
        (envOk.file "a.vert" ++ "\n") :=
  C2_three_part_source demoAdd.1 envOk { Name := "a.vert", Ty := GL_VERTEX_SHADER }
    "#version 330\nP\nX\n" (by decide)

/-- Witness for C5_change_detection: on the freshly registered set, a failing
stat yields timestamp 0, the vertex shader is not marked changed, its entry
is untouched and nothing is submitted. -/
theorem C5_change_detection_witness :
    GetShaderFileTimestamp envErr "a.vert" = 0 ∧
    ({ Name := "a.vert", Ty := GL_VERTEX_SHADER } : ShaderNameTypePair) ∉
      (UpdatePrograms envErr demoAdd.1).changed ∧
    alookup (UpdatePrograms envErr demoAdd.1).state.mShaders
      { Name := "a.vert", Ty := GL_VERTEX_SHADER } =
      some { Handle := 1, Timestamp := 0, ptrId := 0, glStage := GL_VERTEX_SHADER,
             glSource := "", glCompiled := false } := by
  have h := C5_change_detection demoAdd.1 envErr
    { Name := "a.vert", Ty := GL_VERTEX_SHADER }
    { Handle := 1, Timestamp := 0, ptrId := 0, glStage := GL_VERTEX_SHADER,
      glSource := "", glCompiled := false }
    (by decide) (by decide)
  have hnot := h.2.2.1 (by decide)
  exact ⟨h.1 (by decide), hnot, (h.2.2.2 hnot).1⟩

/-- Witness for C9_no_retry: the first pass advances the stored timestamp to
5 while the compile fails, and a second identical poll does not recompile. -/
theorem C9_no_retry_witness :
    (∃ e1, alookup (UpdatePrograms envFail5 demoAdd.1).state.mShaders
        { Name := "a.vert", Ty := GL_VERTEX_SHADER } = some e1 ∧
      e1.Timestamp = GetShaderFileTimestamp envFail5 "a.vert") ∧
    ({ Name := "a.vert", Ty := GL_VERTEX_SHADER } : ShaderNameTypePair) ∉
      (UpdatePrograms envFail5 (UpdatePrograms envFail5 demoAdd.1).state).changed := by
  have h := C9_no_retry demoAdd.1 envFail5 envFail5
    { Name := "a.vert", Ty := GL_VERTEX_SHADER }
    { Handle := 1, Timestamp := 0, ptrId := 0, glStage := GL_VERTEX_SHADER,
      glSource := "", glCompiled := false }
    (by decide) (by decide) (by decide) (by decide)
  exact ⟨h.1, h.2.1⟩

/-- C2 is false on the code as written: when two stages compile from the same
physical file in one pass, both submissions are the identical string, so the
submission cannot contain a stage-specific define that identifies the
compiling stage — there is no decomposition of the submitted source with a
shared prefix and suffix and two different stage defines.  (The code
submits only three parts: version directive, preamble, file contents.) -/
theorem C2_counterexample :
    demoMultiU.submitted =
      [({ Name := "m.glsl", Ty := GL_VERTEX_SHADER }, "#version 330\nP\nX\n"),
       ({ Name := "m.glsl", Ty := GL_FRAGMENT_SHADER }, "#version 330\nP\nX\n")] ∧
    ¬ ∃ (pre post dV dF : String), dV ≠ dF ∧
        "#version 330\nP\nX\n" = pre ++ dV ++ post ∧
        "#version 330\nP\nX\n" = pre ++ dF ++ post := by
  refine ⟨by decide, ?_⟩
  rintro ⟨pre, post, dV, dF, hne, h1, h2⟩
  apply hne
  have h3 : pre ++ dV ++ post = pre ++ dF ++ post := h1.symm.trans h2
  have h4 : (pre.data ++ dV.data) ++ post.data = (pre.data ++ dF.data) ++ post.data := by
    have h5 := congrArg String.data h3
    simpa [String.data_append] using h5
  have h6 : dV.data = dF.data := List.append_cancel_left (List.append_cancel_right h4)
  cases dV
  cases dF
  simp at h6
  simp [h6]

/-- C1 is false on the code: after the second demo pass the vertex shader's
most recent compile failed (compiled status false), yet the program whose key
contains it is relinked in that very pass, and its public handle does not
remain at its previous value 3 — the failed relink forces it to 0. -/
theorem C1_counterexample :
    (alookup demoU2.state.mShaders { Name := "a.vert", Ty := GL_VERTEX_SHADER }).map
        (fun e => (e.ptrId, e.glCompiled)) = some (0, false) ∧
    (0 : Nat) ∈ demoU2.changedIds ∧
    (0 : Nat) ∈ demoAdd.2 ∧
    demoAdd.2 ∈ demoU2.relinked ∧
    (alookup demoU1.state.mPrograms demoAdd.2).map (fun pe => pe.PublicHandle) = some 3 ∧
    (alookup demoU2.state.mPrograms demoAdd.2).map (fun pe => pe.PublicHandle) = some 0 := by
  decide

/-- C1 (amended): a program with at least one changed constituent shader is
relinked unconditionally — the shaders' compile status is never consulted —
and the relink outcome overwrites the public handle: the internal handle on
link success, the invalid sentinel 0 on link failure (the previous public
value is not preserved). -/
theorem C1_relink_unconditional (s : ShaderSetState) (env : Env) (key : List Nat)
    (pe : ProgramPublicInternalPair)
    (hl : alookup s.mPrograms key = some pe)
    (hch : ∃ i ∈ key, i ∈ (UpdatePrograms env s).changedIds) :
    key ∈ (UpdatePrograms env s).relinked ∧
    alookup (UpdatePrograms env s).state.mPrograms key =
      some { pe with PublicHandle :=
        if env.linkOk pe.InternalHandle then pe.InternalHandle else 0 } := by
  have hneed : needsRelink (UpdatePrograms env s).changedIds key = true :=
    (needsRelink_iff _ _).mpr hch
  constructor
  · rw [update_relinked_iff]
    exact ⟨List.mem_map.mpr ⟨(key, pe), alookup_some_mem hl, rfl⟩, hneed⟩
  · rw [update_programs_lookup, hl]
    simp only [Option.map_some']
    rw [relinkVal_needed _ hneed]

/-- Witness for C1_relink_unconditional: the demo program is relinked in the
second pass (whose compiles fail) and its public handle becomes 0. -/
theorem C1_relink_unconditional_witness :
    demoAdd.2 ∈ demoU2.relinked ∧
    alookup demoU2.state.mPrograms demoAdd.2 =
      some { PublicHandle := 0, InternalHandle := 3, glAttached := [1, 2] } := by
  have h := C1_relink_unconditional demoU1.state envBad demoAdd.2
    { PublicHandle := 3, InternalHandle := 3, glAttached := [1, 2] }
    (by decide) (by decide)
  exact h

theorem buildTypedShaders_none : ∀ (paths : List String),
    (∃ p ∈ paths, extTypeOf p = none) → buildTypedShaders paths = none
  | [], h => absurd h (by simp)
  | path :: rest, h => by
    rcases hx : extTypeOf path with _ | ty
    · simp [buildTypedShaders, hx]
    · rcases h with ⟨p, hp, hnone⟩
      rcases List.mem_cons.mp hp with rfl | hr
      · rw [hx] at hnone
        exact absurd hnone (by simp)
      · have hrec := buildTypedShaders_none rest ⟨p, hr, hnone⟩
        simp [buildTypedShaders, hx, hrec]

/-- C6: if any path given to AddProgramFromExts has no extension or an
extension outside the fixed table, the call returns the null reference and
the state — both registries included — is completely unchanged (the paths are
resolved before AddProgram is ever called, so there is no partial insert). -/
theorem C6_bad_ext_rejects (s : ShaderSetState) (paths : List String)
    (h : ∃ p ∈ paths, extTypeOf p = none) :
    AddProgramFromExts s paths = (s, none) := by
  unfold AddProgramFromExts
  rw [buildTypedShaders_none paths h]

/-- Witness for C6_bad_ext_rejects: a `.txt` path and an extensionless path
are both rejected without touching the registries. -/
theorem C6_bad_ext_rejects_witness :
    AddProgramFromExts demoAdd.1 ["c.txt", "a.vert"] = (demoAdd.1, none) ∧
    AddProgramFromExts demoAdd.1 ["noext"] = (demoAdd.1, none) :=
  ⟨C6_bad_ext_rejects demoAdd.1 ["c.txt", "a.vert"] (by decide),
   C6_bad_ext_rejects demoAdd.1 ["noext"] (by decide)⟩

/-- C7: for every (path, stage) pair passed to AddProgram — if unseen, a new
shader entry is created holding a fresh nonzero native handle of the given
stage kind, timestamp 0 and never-compiled GL state; if seen, the existing
entry is kept exactly as it was (no duplicate allocation); and registration
never compiles: no entry's submitted source or compile status is touched. -/
theorem C7_registration (s : ShaderSetState) (l : List (String × Nat)) (hWF : WF s) :
    (∀ nt e, alookup s.mShaders nt = some e →
       alookup (AddProgram s l).1.mShaders nt = some e) ∧
    (∀ p ∈ l, alookup s.mShaders { Name := p.1, Ty := p.2 } = none →
       ∃ e, alookup (AddProgram s l).1.mShaders { Name := p.1, Ty := p.2 } = some e ∧
         e.Timestamp = 0 ∧ e.glCompiled = false ∧ e.glSource = "" ∧
         e.glStage = p.2 ∧ 0 < e.Handle) ∧
    WF (AddProgram s l).1 := by
  refine ⟨?_, ?_, AddProgram_WF l hWF⟩
  · intro nt e h
    rw [AddProgram_shaders]
    exact loop_mono l s h
  · intro p hp h0
    rw [AddProgram_shaders]
    exact loop_new l s p hWF.2.2.2.2.1 hp h0

/-- Witness for C7_registration: registering `a.vert` on the fresh set
creates a timestamp-0, never-compiled vertex-stage entry, and a second
registration preserves it exactly. -/
theorem C7_registration_witness :
    (∃ e, alookup demoAdd.1.mShaders { Name := "a.vert", Ty := GL_VERTEX_SHADER } = some e ∧
       e.Timestamp = 0 ∧ e.glCompiled = false ∧ e.glSource = "" ∧
       e.glStage = GL_VERTEX_SHADER ∧ 0 < e.Handle) ∧
    alookup (AddProgram demoAdd.1 [("a.vert", GL_VERTEX_SHADER)]).1.mShaders
      { Name := "a.vert", Ty := GL_VERTEX_SHADER } =
      some { Handle := 1, Timestamp := 0, ptrId := 0, glStage := GL_VERTEX_SHADER,
             glSource := "", glCompiled := false } := by
  constructor
  · exact (C7_registration demoS0
      [("a.vert", GL_VERTEX_SHADER), ("b.frag", GL_FRAGMENT_SHADER)] (by decide)).2.1
      ("a.vert", GL_VERTEX_SHADER) (by decide) (by decide)
  · exact (C7_registration demoAdd.1 [("a.vert", GL_VERTEX_SHADER)] (by decide)).1
      { Name := "a.vert", Ty := GL_VERTEX_SHADER }
      { Handle := 1, Timestamp := 0, ptrId := 0, glStage := GL_VERTEX_SHADER,
        glSource := "", glCompiled := false } (by decide)

/-- C10: AddProgram with an empty shader list does not fail — on first call
it creates a program entry keyed by the empty canonical key whose native
program object has no shaders attached and whose public handle is the invalid
sentinel 0 (with a nonzero internal handle), touching no shader entry, and
returns the (non-null) reference to that slot; AddProgramFromExts with an
empty path list resolves to exactly the same call. -/
theorem C10_empty_program (s : ShaderSetState) (hWF : WF s)
    (hnew : alookup s.mPrograms [] = none) :
    (AddProgram s []).2 = [] ∧
    (AddProgram s []).1.mShaders = s.mShaders ∧
    alookup (AddProgram s []).1.mPrograms [] = some (freshProgram s []) ∧
    (freshProgram s []).PublicHandle = 0 ∧
    (freshProgram s []).glAttached = [] ∧
    (freshProgram s []).InternalHandle ≠ 0 ∧
    AddProgramFromExts s [] = ((AddProgram s []).1, some []) := by
  have hlook : alookup (addShadersLoop s []).1.mPrograms (canonKey (addShadersLoop s []).2) = none :=
    hnew
  have heq := AddProgram_newEq hlook
  have h2 : (AddProgram s []).2 = [] := by rw [heq]; rfl
  refine ⟨h2, ?_, ?_, rfl, rfl, ?_, ?_⟩
  · rw [heq]; rfl
  · rw [heq]
    show alookup (s.mPrograms ++ [([], freshProgram s [])]) [] = some (freshProgram s [])
    rw [alookup_append_none _ hnew]
    simp [alookup]
  · show s.nextHandle ≠ 0
    exact Nat.pos_iff_ne_zero.mp hWF.2.2.2.2.1
  · show ((AddProgram s []).1, some (AddProgram s []).2) = ((AddProgram s []).1, some [])
    rw [h2]

/-- Witness for C10_empty_program on the fresh demo set. -/
theorem C10_empty_program_witness :
    (AddProgram demoS0 []).2 = [] ∧
    alookup (AddProgram demoS0 []).1.mPrograms [] = some (freshProgram demoS0 []) ∧
    (freshProgram demoS0 []).InternalHandle ≠ 0 ∧
    AddProgramFromExts demoS0 [] = ((AddProgram demoS0 []).1, some []) := by
  have h := C10_empty_program demoS0 (by decide) (by decide)
  exact ⟨h.1, h.2.2.1, h.2.2.2.2.2.1, h.2.2.2.2.2.2⟩

/-- C3: on the same ShaderSet, registering any list with the same member set
of (path, stage) pairs as an earlier registration — any permutation, with or
without duplicate entries — returns the same canonical program key (hence a
reference to the same public-handle slot), changes nothing at all in the
state (exactly one ProgramEntry exists for the set), and the shader registry
keeps exactly one ShaderEntry per identity (well-formedness is preserved). -/
theorem C3_addProgram_canonical (s : ShaderSetState) (l1 l2 : List (String × Nat))
    (hWF : WF s) (hset : ∀ x, x ∈ l1 ↔ x ∈ l2) :
    (AddProgram (AddProgram s l1).1 l2).2 = (AddProgram s l1).2 ∧
    (AddProgram (AddProgram s l1).1 l2).1 = (AddProgram s l1).1 ∧
    WF (AddProgram s l1).1 := by
  have hsh : (AddProgram s l1).1.mShaders = (addShadersLoop s l1).1.mShaders :=
    AddProgram_shaders s l1
  have hpres2 : ∀ p ∈ l2,
      (alookup (AddProgram s l1).1.mShaders { Name := p.1, Ty := p.2 }).isSome := by
    intro p hp
    rw [hsh]
    obtain ⟨e, he⟩ := loop_present l1 s p ((hset p).mpr hp)
    simp [he]
  have hpure := loop_pure l2 (AddProgram s l1).1 hpres2
  have hids1 : (addShadersLoop s l1).2 =
      l1.map (fun p => idOf (addShadersLoop s l1).1.mShaders { Name := p.1, Ty := p.2 }) :=
    loop_ids l1 s
  have hidOf : ∀ nt, idOf (AddProgram s l1).1.mShaders nt =
      idOf (addShadersLoop s l1).1.mShaders nt := by
    intro nt
    rw [hsh]
  have hmemids : ∀ x, x ∈ (addShadersLoop (AddProgram s l1).1 l2).2 ↔
      x ∈ (addShadersLoop s l1).2 := by
    intro x
    rw [hids1, congrArg Prod.snd hpure]
    show x ∈ l2.map (fun p => idOf (AddProgram s l1).1.mShaders { Name := p.1, Ty := p.2 }) ↔ _
    simp only [List.mem_map]
    constructor
    · rintro ⟨p, hp, rfl⟩
      exact ⟨p, (hset p).mpr hp, (hidOf _).symm⟩
    · rintro ⟨p, hp, rfl⟩
      exact ⟨p, (hset p).mp hp, hidOf _⟩
  have hkeyeq : canonKey (addShadersLoop (AddProgram s l1).1 l2).2 = (AddProgram s l1).2 := by
    rw [AddProgram_key s l1]
    exact canonKey_ext hmemids
  obtain ⟨pe, hpe⟩ := AddProgram_key_present s l1
  have hst : (addShadersLoop (AddProgram s l1).1 l2).1 = (AddProgram s l1).1 := by
    rw [hpure]
  have hlook2 : alookup (addShadersLoop (AddProgram s l1).1 l2).1.mPrograms
      (canonKey (addShadersLoop (AddProgram s l1).1 l2).2) = some pe := by
    rw [hst, hkeyeq]
    exact hpe
  refine ⟨?_, ?_, AddProgram_WF l1 hWF⟩
  · rw [AddProgram_found hlook2]
    show canonKey (addShadersLoop (AddProgram s l1).1 l2).2 = (AddProgram s l1).2
    exact hkeyeq
  · rw [AddProgram_found hlook2]
    show (addShadersLoop (AddProgram s l1).1 l2).1 = (AddProgram s l1).1
    exact hst

/-- Witness for C3_addProgram_canonical: the reversed, duplicated list
resolves to the same key and leaves the state untouched. -/
theorem C3_addProgram_canonical_witness :
    (AddProgram demoAdd.1
      [("b.frag", GL_FRAGMENT_SHADER), ("a.vert", GL_VERTEX_SHADER),
       ("a.vert", GL_VERTEX_SHADER)]).2 = demoAdd.2 ∧
    (AddProgram demoAdd.1
      [("b.frag", GL_FRAGMENT_SHADER), ("a.vert", GL_VERTEX_SHADER),
       ("a.vert", GL_VERTEX_SHADER)]).1 = demoAdd.1 := by
  have h := C3_addProgram_canonical demoS0
    [("a.vert", GL_VERTEX_SHADER), ("b.frag", GL_FRAGMENT_SHADER)]
    [("b.frag", GL_FRAGMENT_SHADER), ("a.vert", GL_VERTEX_SHADER),
     ("a.vert", GL_VERTEX_SHADER)]
    (by decide)
    (by
      intro x
      simp only [List.mem_cons, List.not_mem_nil, or_false]
      tauto)
  exact ⟨h.1, h.2.1⟩

theorem AddProgramFromExts_cases (s : ShaderSetState) (l : List String) :
    (AddProgramFromExts s l).1 = s ∨
    ∃ typed, buildTypedShaders l = some typed ∧
      AddProgramFromExts s l = ((AddProgram s typed).1, some (AddProgram s typed).2) := by
  rcases h : buildTypedShaders l with _ | typed
  · left
    simp [AddProgramFromExts, h]
  · right
    refine ⟨typed, rfl, ?_⟩
    simp [AddProgramFromExts, h]

theorem AddProgram_lookup_none_public {s : ShaderSetState} {l : List (String × Nat)}
    {key : List Nat} {pe' : ProgramPublicInternalPair}
    (h0 : alookup s.mPrograms key = none)
    (h1 : alookup (AddProgram s l).1.mPrograms key = some pe') : pe'.PublicHandle = 0 := by
  obtain ⟨-, hpe⟩ := AddProgram_creates_only h0 h1
  rw [hpe]
  rfl

theorem AddProgram_lookup_some_eq {s : ShaderSetState} {l : List (String × Nat)}
    {key : List Nat} {pe pe' : ProgramPublicInternalPair}
    (hp : alookup s.mPrograms key = some pe)
    (h1 : alookup (AddProgram s l).1.mPrograms key = some pe') : pe' = pe := by
  have h2 := AddProgram_preserves_programs (l := l) hp
  rw [h2] at h1
  exact (Option.some.inj h1).symm

/-- C4: the per-operation state machine of a program entry.  A newly created
entry has public handle 0 (invalid); across any public operation an existing
entry keeps its internal handle identity, and its public handle changes only
when an update pass relinks the program — to the internal handle on link
success and to the invalid sentinel 0 on link failure; in particular a public
handle that is 0 stays 0 until an update pass relinks the program with link
success. -/
theorem C4_program_state_machine (s : ShaderSetState) (op : Op) (key : List Nat) :
    (∀ pe', alookup s.mPrograms key = none →
       alookup (runOp s op).mPrograms key = some pe' → pe'.PublicHandle = 0) ∧
    (∀ pe pe', alookup s.mPrograms key = some pe →
       alookup (runOp s op).mPrograms key = some pe' →
       pe'.InternalHandle = pe.InternalHandle ∧
       (pe'.PublicHandle = pe.PublicHandle ∨
         ∃ env, op = Op.update env ∧ key ∈ (UpdatePrograms env s).relinked ∧
           pe'.PublicHandle =
             (if env.linkOk pe.InternalHandle then pe.InternalHandle else 0))) ∧
    (∀ pe pe', alookup s.mPrograms key = some pe →
       alookup (runOp s op).mPrograms key = some pe' →
       pe.PublicHandle = 0 → pe'.PublicHandle ≠ 0 →
       ∃ env, op = Op.update env ∧ key ∈ (UpdatePrograms env s).relinked ∧
         env.linkOk pe.InternalHandle = true) := by
  cases op with
  | add l =>
    refine ⟨?_, ?_, ?_⟩
    · intro pe' h0 h1
      exact AddProgram_lookup_none_public h0 h1
    · intro pe pe' hp h1
      have hpe := AddProgram_lookup_some_eq hp h1
      exact ⟨by rw [hpe], Or.inl (by rw [hpe])⟩
    · intro pe pe' hp h1 hz hne
      have hpe := AddProgram_lookup_some_eq hp h1
      exact absurd (by rw [hpe, hz]) hne
  | addExts l =>
    rcases AddProgramFromExts_cases s l with hsame | ⟨typed, -, heq⟩
    · refine ⟨?_, ?_, ?_⟩
      · intro pe' h0 h1
        have h1' : alookup (AddProgramFromExts s l).1.mPrograms key = some pe' := h1
        rw [hsame, h0] at h1'
        cases h1'
      · intro pe pe' hp h1
        have h1' : alookup (AddProgramFromExts s l).1.mPrograms key = some pe' := h1
        rw [hsame, hp] at h1'
        have hpe := (Option.some.inj h1').symm
        exact ⟨by rw [hpe], Or.inl (by rw [hpe])⟩
      · intro pe pe' hp h1 hz hne
        have h1' : alookup (AddProgramFromExts s l).1.mPrograms key = some pe' := h1
        rw [hsame, hp] at h1'
        have hpe := (Option.some.inj h1').symm
        exact absurd (by rw [hpe, hz]) hne
    · refine ⟨?_, ?_, ?_⟩
      · intro pe' h0 h1
        have h1' : alookup (AddProgramFromExts s l).1.mPrograms key = some pe' := h1
        rw [heq] at h1'
        exact AddProgram_lookup_none_public h0 h1'
      · intro pe pe' hp h1
        have h1' : alookup (AddProgramFromExts s l).1.mPrograms key = some pe' := h1
        rw [heq] at h1'
        have hpe := AddProgram_lookup_some_eq hp h1'
        exact ⟨by rw [hpe], Or.inl (by rw [hpe])⟩
      · intro pe pe' hp h1 hz hne
        have h1' : alookup (AddProgramFromExts s l).1.mPrograms key = some pe' := h1
        rw [heq] at h1'
        have hpe := AddProgram_lookup_some_eq hp h1'
        exact absurd (by rw [hpe, hz]) hne
  | setVersion v =>
    refine ⟨?_, ?_, ?_⟩
    · intro pe' h0 h1
      have h1' : alookup s.mPrograms key = some pe' := h1
      rw [h0] at h1'
      cases h1'
    · intro pe pe' hp h1
      have h1' : alookup s.mPrograms key = some pe' := h1
      rw [hp] at h1'
      have hpe := (Option.some.inj h1').symm
      exact ⟨by rw [hpe], Or.inl (by rw [hpe])⟩
    · intro pe pe' hp h1 hz hne
      have h1' : alookup s.mPrograms key = some pe' := h1
      rw [hp] at h1'
      have hpe := (Option.some.inj h1').symm
      exact absurd (by rw [hpe, hz]) hne
  | setPreamble p =>
    refine ⟨?_, ?_, ?_⟩
    · intro pe' h0 h1
      have h1' : alookup s.mPrograms key = some pe' := h1
      rw [h0] at h1'
      cases h1'
    · intro pe pe' hp h1
      have h1' : alookup s.mPrograms key = some pe' := h1
      rw [hp] at h1'
      have hpe := (Option.some.inj h1').symm
      exact ⟨by rw [hpe], Or.inl (by rw [hpe])⟩
    · intro pe pe' hp h1 hz hne
      have h1' : alookup s.mPrograms key = some pe' := h1
      rw [hp] at h1'
      have hpe := (Option.some.inj h1').symm
      exact absurd (by rw [hpe, hz]) hne
  | update env =>
    refine ⟨?_, ?_, ?_⟩
    · intro pe' h0 h1
      have h1' : alookup (UpdatePrograms env s).state.mPrograms key = some pe' := h1
      rw [update_programs_lookup, h0] at h1'
      cases h1'
    · intro pe pe' hp h1
      have h1' : alookup (UpdatePrograms env s).state.mPrograms key = some pe' := h1
      rw [update_programs_lookup, hp] at h1'
      have hpe : pe' = relinkVal env (UpdatePrograms env s).changedIds key pe :=
        (Option.some.inj h1').symm
      by_cases hneed : needsRelink (UpdatePrograms env s).changedIds key = true
      · have hmem : key ∈ (UpdatePrograms env s).relinked := by
          rw [update_relinked_iff]
          exact ⟨List.mem_map.mpr ⟨(key, pe), alookup_some_mem hp, rfl⟩, hneed⟩
        rw [hpe, relinkVal_needed pe hneed]
        exact ⟨rfl, Or.inr ⟨env, rfl, hmem, rfl⟩⟩
      · rw [hpe, relinkVal_not_needed pe hneed]
        exact ⟨rfl, Or.inl rfl⟩
    · intro pe pe' hp h1 hz hne
      have h1' : alookup (UpdatePrograms env s).state.mPrograms key = some pe' := h1
      rw [update_programs_lookup, hp] at h1'
      have hpe : pe' = relinkVal env (UpdatePrograms env s).changedIds key pe :=
        (Option.some.inj h1').symm
      by_cases hneed : needsRelink (UpdatePrograms env s).changedIds key = true
      · have hmem : key ∈ (UpdatePrograms env s).relinked := by
          rw [update_relinked_iff]
          exact ⟨List.mem_map.mpr ⟨(key, pe), alookup_some_mem hp, rfl⟩, hneed⟩
        by_cases hok : env.linkOk pe.InternalHandle = true
        · exact ⟨env, rfl, hmem, hok⟩
        · exfalso
          apply hne
          rw [hpe, relinkVal_needed pe hneed]
          show (if env.linkOk pe.InternalHandle then pe.InternalHandle else 0) = 0
          simp [hok]
      · exfalso
        apply hne
        rw [hpe, relinkVal_not_needed pe hneed, hz]

/-- Witness for C4_program_state_machine: creation gives public handle 0, and
the failing second demo pass relinks the program setting it to 0 from 3. -/
theorem C4_program_state_machine_witness :
    ({ PublicHandle := 0, InternalHandle := 3, glAttached := [1, 2] }
        : ProgramPublicInternalPair).PublicHandle = 0 ∧
    ({ PublicHandle := 0, InternalHandle := 3, glAttached := [1, 2] }
        : ProgramPublicInternalPair).InternalHandle =
      ({ PublicHandle := 3, InternalHandle := 3, glAttached := [1, 2] }
        : ProgramPublicInternalPair).InternalHandle := by
  constructor
  · exact (C4_program_state_machine demoS0
      (Op.add [("a.vert", GL_VERTEX_SHADER), ("b.frag", GL_FRAGMENT_SHADER)]) [0, 1]).1
      { PublicHandle := 0, InternalHandle := 3, glAttached := [1, 2] }
      (by decide) (by decide)
  · exact ((C4_program_state_machine demoU1.state (Op.update envBad) [0, 1]).2.1
      { PublicHandle := 3, InternalHandle := 3, glAttached := [1, 2] }
      { PublicHandle := 0, InternalHandle := 3, glAttached := [1, 2] }
      (by decide) (by decide)).1
